import Mathlib

/-!
Shallow embedding of the sample web service (src/go/main.go): the probe
handlers, the writeJSON helper, the middleware pipeline (security headers,
request logging with response capture), the chain combinator, and the route
table built in main. Handlers are modelled as functions from a request to a
trace of response-writer events plus emitted log records; a separate
interpreter folds a trace into the observable wire response (headers sent,
status line, body), mirroring the net/http rule that the header set is
snapshotted at the first WriteHeader or Write and that only the first
explicit status reaches the wire.
-/

namespace SampleApp

/-- One call made on an http.ResponseWriter: a header mutation
(w.Header().Set(k, v)), an explicit status write (w.WriteHeader(code)),
or a body write (w.Write(b), with b kept as a string of bytes). -/
inductive WEvent where
  | setHeader (k v : String)
  | writeHeader (code : Nat)
  | write (b : String)
deriving DecidableEq

/-- Header list with Set semantics: replace the value of an existing key,
otherwise append the pair. -/
def setHeaderList (hs : List (String × String)) (k v : String) : List (String × String) :=
  if hs.any (fun p => p.1 = k) then hs.map (fun p => if p.1 = k then (k, v) else p)
  else hs ++ [(k, v)]

/-- First value stored under key k, if any. -/
def lookupHeader (hs : List (String × String)) (k : String) : Option String :=
  (hs.find? (fun p => p.1 = k)).map Prod.snd

/-- Observable wire state of a response: headers still pending, the status
actually sent (none until the first WriteHeader or Write), the header set
snapshotted when the status was sent, and the accumulated body. -/
structure ResponseState where
  pending : List (String × String)
  status : Option Nat
  sent : List (String × String)
  body : String

def initialResponse : ResponseState := ⟨[], none, [], ""⟩

/-- net/http wire semantics for one writer event: Set mutates the pending
header map; the first WriteHeader commits status and headers (later ones are
superfluous and ignored on the wire); a Write with no status yet committed
first commits an implicit 200, then appends to the body. -/
def applyEvent (s : ResponseState) (e : WEvent) : ResponseState :=
  match e with
  | .setHeader k v => { s with pending := setHeaderList s.pending k v }
  | .writeHeader c =>
      match s.status with
      | none => { s with status := some c, sent := s.pending }
      | some _ => s
  | .write b =>
      match s.status with
      | none => { s with status := some 200, sent := s.pending, body := s.body ++ b }
      | some _ => { s with body := s.body ++ b }

/-- Interpret a full event trace into the wire response. -/
def runEvents (es : List WEvent) : ResponseState := es.foldl applyEvent initialResponse

/-- The parts of an http.Request the handlers read. -/
structure Request where
  method : String
  path : String
  remoteAddr : String
deriving DecidableEq

/-- The structured record emitted by the logging middleware: exactly the six
fields passed to slog in withLogging. -/
structure LogRecord where
  method : String
  path : String
  status : Nat
  bytes : Nat
  remote : String
  durMs : Int
deriving DecidableEq

/-- Output of serving one request: the writer events issued, in order, and
the log records emitted, in order. -/
structure HOut where
  events : List WEvent
  logs : List LogRecord

abbrev Handler := Request → HOut

abbrev Middleware := Handler → Handler

/-- chain from main.go: the loop walks the middleware list from the last
element down to the first, rewrapping h each time, so the head of the list
ends up outermost; that loop is exactly a right fold. -/
def chain (h : Handler) (mws : List Middleware) : Handler :=
  mws.foldr (fun mw acc => mw acc) h

/-- A single quote character (byte 0x27). -/
def sq : String := String.singleton (Char.ofNat 39)

/-- Wrap a token in single quotes, as CSP source expressions are written. -/
def quoted (s : String) : String := sq ++ s ++ sq

/-- The Content-Security-Policy value set by withSecurityHeaders, built
byte-for-byte: default-src, img-src, style-src, script-src directives with
single-quoted keyword sources. -/
def cspValue : String :=
  "default-src " ++ quoted "self" ++ "; img-src " ++ quoted "self" ++ " data:; style-src "
    ++ quoted "self" ++ " " ++ quoted "unsafe-inline" ++ "; script-src " ++ quoted "self"

/-- The four fixed header pairs set by withSecurityHeaders, in program order. -/
def securityHeaderList : List (String × String) :=
  [("X-Content-Type-Options", "nosniff"),
   ("X-Frame-Options", "DENY"),
   ("Referrer-Policy", "no-referrer"),
   ("Content-Security-Policy", cspValue)]

def securityHeaderEvents : List WEvent :=
  securityHeaderList.map (fun p => WEvent.setHeader p.1 p.2)

/-- withSecurityHeaders from main.go: sets the four fixed headers on the
writer, then delegates to the wrapped handler; so its event trace is the four
Set events followed by whatever the inner handler writes. -/
def withSecurityHeaders : Middleware := fun next r =>
  let out := next r
  { out with events := securityHeaderEvents ++ out.events }

/-- State of the rwCapture wrapper: the recorded status (0 while unset, as
the Go zero value) and the accumulated byte count. -/
structure CapState where
  status : Nat
  size : Nat
deriving DecidableEq

/-- One step of rwCapture: WriteHeader records the code and forwards; Write
first defaults the recorded status to 200 if it is still 0, forwards the
write, and adds the bytes written (the underlying writer accepts the whole
slice); header mutations pass through untouched. -/
def capStep (s : CapState) (e : WEvent) : CapState :=
  match e with
  | .writeHeader c => { s with status := c }
  | .write b => { status := if s.status = 0 then 200 else s.status, size := s.size + b.length }
  | .setHeader _ _ => s

/-- What rwCapture has recorded after the inner handler issued the trace es. -/
def capture (es : List WEvent) : CapState := es.foldl capStep ⟨0, 0⟩

/-- withLogging from main.go, with the measured elapsed milliseconds injected
as durMs: wraps the writer in a capture, delegates, then emits exactly one
record with method, path, captured status, captured bytes, remote address and
duration, after the inner handler has returned. -/
def withLogging (durMs : Int) : Middleware := fun next r =>
  let out := next r
  let c := capture out.events
  { events := out.events,
    logs := out.logs ++ [⟨r.method, r.path, c.status, c.size, r.remoteAddr, durMs⟩] }

/-- The fixed JSON bodies written by writeJSON at the call sites in main.go. -/
def healthyBody : String := "\x7b\"status\":\"healthy\"\x7d"

def aliveBody : String := "\x7b\"status\":\"alive\"\x7d"

def warmingBody : String := "\x7b\"status\":\"warming\"\x7d"

def readyBody : String := "\x7b\"status\":\"ready\"\x7d"

/-- writeJSON from main.go: sets Content-Type, writes the status line, then
prints the body with no trailing newline. -/
def writeJSON (status : Nat) (body : String) : List WEvent :=
  [.setHeader "Content-Type" "application/json", .writeHeader status, .write body]

/-- healthHandler from main.go: unconditionally writeJSON(200, healthy). -/
def healthHandler : Handler := fun _ =>
  { events := writeJSON 200 healthyBody, logs := [] }

/-- liveHandler from main.go: unconditionally writeJSON(200, alive). -/
def liveHandler : Handler := fun _ =>
  { events := writeJSON 200 aliveBody, logs := [] }

/-- readyHandler from main.go, with the clock made explicit: time.Since of
startTime is now - startTime (nanoseconds); below readyAfter it answers
writeJSON(503, warming), otherwise writeJSON(200, ready). -/
def readyHandler (now startTime readyAfter : Int) : Handler := fun _ =>
  if now - startTime < readyAfter then
    { events := writeJSON 503 warmingBody, logs := [] }
  else
    { events := writeJSON 200 readyBody, logs := [] }

/-- The events http.NotFound issues (via http.Error): plain-text
Content-Type, nosniff, explicit 404, and the Fprintln body. -/
def notFoundEvents : List WEvent :=
  [.setHeader "Content-Type" "text/plain; charset=utf-8",
   .setHeader "X-Content-Type-Options" "nosniff",
   .writeHeader 404,
   .write "404 page not found\n"]

/-- homeHandler from main.go, with the embedded index.html bytes passed in:
any path other than the bare root gets http.NotFound; the root gets the HTML
Content-Type and the page bytes copied to the writer (implicit 200). -/
def homeHandler (indexHTML : String) : Handler := fun r =>
  if r.path = "/" then
    { events := [.setHeader "Content-Type" "text/html; charset=utf-8", .write indexHTML],
      logs := [] }
  else
    { events := notFoundEvents, logs := [] }

/-- Lower-case hex digit for a nibble, as encoding/json emits in escapes. -/
def hexDigit (n : Nat) : Char :=
  if n < 10 then Char.ofNat (48 + n) else Char.ofNat (87 + n)

/-- encoding/json escaping of one character with the default HTML escaping:
quote, backslash, newline, carriage return and tab get two-byte escapes; the
HTML-sensitive characters and the remaining control characters get u-escapes;
everything else passes through. -/
def jsonEscapeChar (c : Char) : String :=
  if c = Char.ofNat 34 then "\\\""
  else if c = Char.ofNat 92 then "\\\\"
  else if c = Char.ofNat 10 then "\\n"
  else if c = Char.ofNat 13 then "\\r"
  else if c = Char.ofNat 9 then "\\t"
  else if c = Char.ofNat 60 then "\\u003c"
  else if c = Char.ofNat 62 then "\\u003e"
  else if c = Char.ofNat 38 then "\\u0026"
  else if c.toNat < 32 then
    "\\u00" ++ String.singleton (hexDigit (c.toNat / 16)) ++ String.singleton (hexDigit (c.toNat % 16))
  else if c.toNat = 8232 ∨ c.toNat = 8233 then
    "\\u202" ++ String.singleton (hexDigit (c.toNat % 16))
  else String.singleton c

/-- A JSON string literal for s, per encoding/json. -/
def jsonString (s : String) : String :=
  "\"" ++ String.join (s.data.map jsonEscapeChar) ++ "\""

/-- The AppInfo struct of main.go: all seven fields, in declaration order. -/
structure AppInfo where
  name : String
  version : String
  commit : String
  environment : String
  buildTime : String
  uptime : String
  hostname : String
deriving DecidableEq

/-- json.Encoder.Encode of an AppInfo value: every field is emitted (none of
the tags carries omitempty), keys in struct order, and Encode appends a
newline. -/
def encodeAppInfo (a : AppInfo) : String :=
  "\x7b\"name\":" ++ jsonString a.name
    ++ ",\"version\":" ++ jsonString a.version
    ++ ",\"commit\":" ++ jsonString a.commit
    ++ ",\"environment\":" ++ jsonString a.environment
    ++ ",\"buildTime\":" ++ jsonString a.buildTime
    ++ ",\"uptime\":" ++ jsonString a.uptime
    ++ ",\"hostname\":" ++ jsonString a.hostname
    ++ "\x7d\n"

/-- time.Duration.String for a nonnegative whole number of seconds, which is
the only shape reaching it here because the handlers truncate to the second:
zero prints 0s; otherwise hours appear only when nonzero, minutes whenever
hours do or are themselves nonzero, and seconds always. -/
def goDurationSecString (secs : Nat) : String :=
  if secs = 0 then "0s"
  else
    let h := secs / 3600
    let m := secs % 3600 / 60
    let s := secs % 60
    if h ≠ 0 then toString h ++ "h" ++ toString m ++ "m" ++ toString s ++ "s"
    else if m ≠ 0 then toString m ++ "m" ++ toString s ++ "s"
    else toString s ++ "s"

/-- time.Since(startTime).Truncate(time.Second).String() with the clock
explicit: nanoseconds elapsed, truncated to whole seconds. The toNat clamp
is exact because the process clock never observes now before startTime. -/
def uptimeString (startTime now : Int) : String :=
  goDurationSecString ((now - startTime).toNat / 1000000000)

/-- versionHandler from main.go: encodes an AppInfo with the commit field
populated from the build commit, under an application/json Content-Type,
with the status left implicit. -/
def versionHandler (version commit env buildTime hostname : String)
    (startTime now : Int) : Handler := fun _ =>
  { events := [.setHeader "Content-Type" "application/json",
               .write (encodeAppInfo
                 ⟨"Harness Demo App", version, commit, env, buildTime,
                  uptimeString startTime now, hostname⟩)],
    logs := [] }

/-- infoHandler from main.go: identical to versionHandler except that the
Commit field of the literal is never assigned, so it keeps the Go zero value,
the empty string, and is still serialized because the tag has no omitempty. -/
def infoHandler (version env buildTime hostname : String)
    (startTime now : Int) : Handler := fun _ =>
  { events := [.setHeader "Content-Type" "application/json",
               .write (encodeAppInfo
                 ⟨"Harness Demo App", version, "", env, buildTime,
                  uptimeString startTime now, hostname⟩)],
    logs := [] }

/-- The process-wide values of main.go made explicit, plus the injected
clock readings and the two handlers mounted from outside the core: the
static file server and the metrics exporter. -/
structure Globals where
  version : String
  env : String
  buildTime : String
  commit : String
  hostname : String
  indexHTML : String
  startTime : Int
  readyAfter : Int
  now : Int
  durMs : Int
  staticH : Handler
  metricsH : Handler

/-- The route table built in main: each application route is the terminal
handler wrapped as chain(h, withSecurityHeaders(), withLogging()); the
static prefix route is StripPrefix("/static/", fileServer) with no
middleware, and /metrics is the external metrics handler with no
middleware; every unmatched path falls through to the root pattern, which
is the wrapped homeHandler. -/
def appHandler (g : Globals) : Handler := fun r =>
  let srv : Handler → HOut := fun h => chain h [withSecurityHeaders, withLogging g.durMs] r
  if r.path = "/" then srv (homeHandler g.indexHTML)
  else if r.path = "/api/info" then
    srv (infoHandler g.version g.env g.buildTime g.hostname g.startTime g.now)
  else if r.path = "/version" then
    srv (versionHandler g.version g.commit g.env g.buildTime g.hostname g.startTime g.now)
  else if r.path = "/health" then srv healthHandler
  else if r.path = "/live" then srv liveHandler
  else if r.path = "/ready" then srv (readyHandler g.now g.startTime g.readyAfter)
  else if r.path = "/healthz" then srv healthHandler
  else if r.path = "/livez" then srv liveHandler
  else if r.path = "/readyz" then srv (readyHandler g.now g.startTime g.readyAfter)
  else if r.path = "/metrics" then g.metricsH r
  else if r.path.startsWith "/static/" then g.staticH { r with path := r.path.drop 8 }
  else srv (homeHandler g.indexHTML)

/-- The explicit status codes of a trace, in order: one entry per
WriteHeader call. -/
def writeHeaderCodes : List WEvent → List Nat
  | [] => []
  | .writeHeader c :: es => c :: writeHeaderCodes es
  | _ :: es => writeHeaderCodes es

/-- Total bytes passed to Write across the trace. -/
def writtenBytes : List WEvent → Nat
  | [] => 0
  | .write b :: es => b.length + writtenBytes es
  | _ :: es => writtenBytes es

/-- Whether the trace contains at least one body write. -/
def hasWrite : List WEvent → Bool
  | [] => false
  | .write _ :: _ => true
  | _ :: es => hasWrite es

/-- The captured status as the specification words it, written independently
of the rwCapture code: the last explicitly set status code; failing that, 200
when a body write occurred; failing that, the zero value. -/
def capStatusSpec (es : List WEvent) : Nat :=
  (writeHeaderCodes es).getLastD (if hasWrite es then 200 else 0)

/-- A wire response carries the four security headers with their byte-exact
contract values. -/
def hasSecurityHeaders (st : ResponseState) : Prop :=
  lookupHeader st.sent "X-Content-Type-Options" = some "nosniff" ∧
  lookupHeader st.sent "X-Frame-Options" = some "DENY" ∧
  lookupHeader st.sent "Referrer-Policy" = some "no-referrer" ∧
  lookupHeader st.sent "Content-Security-Policy" = some cspValue

/-- Modelled from the spec: the metrics route is served by an external
metrics-exposition collaborator (out of core scope, mounted in main without
the middleware chain); it writes its exposition under its own Content-Type
and sets none of the application security headers. -/
def metricsModel : Handler := fun _ =>
  { events := [.setHeader "Content-Type" "text/plain; version=0.0.4; charset=utf-8",
               .write "# metrics exposition\n"],
    logs := [] }

/-- Modelled from the spec: the static file server over the embedded assets
(an external collaborator, mounted in main without the middleware chain);
for the sample configuration it serves an asset body under its own
Content-Type. -/
def staticModel : Handler := fun _ =>
  { events := [.setHeader "Content-Type" "text/css; charset=utf-8",
               .write "body \x7b margin: 0 \x7d\n"],
    logs := [] }

/-- A sample process configuration: the default version, environment and
commit values of main.go, a five-second-old process with the two-second
default warm-up, and the two external collaborators above. -/
def gW : Globals :=
  { version := "1.0.0"
    env := "development"
    buildTime := ""
    commit := "unknown"
    hostname := "demo-host"
    indexHTML := "<html>Harness Demo App</html>"
    startTime := 0
    readyAfter := 2000000000
    now := 5000000000
    durMs := 3
    staticH := staticModel
    metricsH := metricsModel }

/-- The same configuration observed exactly at the warm-up boundary: the
elapsed time equals readyAfter. -/
def gB : Globals := { gW with now := 2000000000 }

/-! Helper lemmas about the capture fold. -/

theorem foldl_capStep_size (es : List WEvent) :
    ∀ s : CapState, (es.foldl capStep s).size = s.size + writtenBytes es := by
  induction es with
  | nil => intro s; simp [writtenBytes]
  | cons e es ih =>
      intro s
      cases e with
      | setHeader k v => simp [capStep, writtenBytes, ih]
      | writeHeader c => simp [capStep, writtenBytes, ih]
      | write b => simp [capStep, writtenBytes, ih]; omega

theorem foldl_capStep_status_of_ne (es : List WEvent) :
    ∀ s : CapState, (∀ c ∈ writeHeaderCodes es, c ≠ 0) → s.status ≠ 0 →
      (es.foldl capStep s).status = (writeHeaderCodes es).getLastD s.status := by
  induction es with
  | nil => intro s _ _; simp [writeHeaderCodes, List.getLastD]
  | cons e es ih =>
      intro s hc hs
      cases e with
      | setHeader k v =>
          simpa [capStep, writeHeaderCodes] using ih s (by simpa [writeHeaderCodes] using hc) hs
      | writeHeader c =>
          have hc0 : c ≠ 0 := hc c (by simp [writeHeaderCodes])
          have h := ih { s with status := c } (fun d hd => hc d (by simp [writeHeaderCodes, hd])) hc0
          rw [List.foldl_cons,
            show capStep s (.writeHeader c) = { s with status := c } from rfl,
            show writeHeaderCodes (.writeHeader c :: es) = c :: writeHeaderCodes es from rfl,
            List.getLastD_cons]
          exact h
      | write b =>
          have hstep : capStep s (.write b) = { status := s.status, size := s.size + b.length } := by
            simp [capStep, hs]
          rw [List.foldl_cons, hstep]
          simpa [writeHeaderCodes] using
            ih { status := s.status, size := s.size + b.length }
              (by simpa [writeHeaderCodes] using hc) hs

theorem foldl_capStep_status_nowrite (es : List WEvent) :
    ∀ s : CapState, hasWrite es = false →
      (es.foldl capStep s).status = (writeHeaderCodes es).getLastD s.status := by
  induction es with
  | nil => intro s _; simp [writeHeaderCodes, List.getLastD]
  | cons e es ih =>
      intro s hw
      cases e with
      | setHeader k v =>
          simpa [capStep, writeHeaderCodes] using ih s (by simpa [hasWrite] using hw)
      | writeHeader c =>
          have h := ih { s with status := c } (by simpa [hasWrite] using hw)
          rw [List.foldl_cons,
            show capStep s (.writeHeader c) = { s with status := c } from rfl,
            show writeHeaderCodes (.writeHeader c :: es) = c :: writeHeaderCodes es from rfl,
            List.getLastD_cons]
          exact h
      | write b => simp [hasWrite] at hw

theorem writtenBytes_of_nowrite (es : List WEvent) (hw : hasWrite es = false) :
    writtenBytes es = 0 := by
  induction es with
  | nil => simp [writtenBytes]
  | cons e es ih =>
      cases e with
      | setHeader k v => simpa [writtenBytes] using ih (by simpa [hasWrite] using hw)
      | writeHeader c => simpa [writtenBytes] using ih (by simpa [hasWrite] using hw)
      | write b => simp [hasWrite] at hw


theorem sec_of_writeJSON (c : Nat) (b : String) :
    hasSecurityHeaders (runEvents (securityHeaderEvents ++ writeJSON c b)) :=
  ⟨rfl, rfl, rfl, rfl⟩

theorem sec_of_json_write (b : String) :
    hasSecurityHeaders (runEvents (securityHeaderEvents ++
      [WEvent.setHeader "Content-Type" "application/json", WEvent.write b])) :=
  ⟨rfl, rfl, rfl, rfl⟩

theorem sec_of_home (idx : String) (r : Request) :
    hasSecurityHeaders (runEvents (securityHeaderEvents ++ (homeHandler idx r).events)) := by
  simp only [homeHandler]
  by_cases h : r.path = "/"
  · rw [if_pos h]; exact ⟨rfl, rfl, rfl, rfl⟩
  · rw [if_neg h]; exact ⟨rfl, rfl, rfl, rfl⟩

theorem sec_of_ready (now s ra : Int) (r : Request) :
    hasSecurityHeaders (runEvents (securityHeaderEvents ++ (readyHandler now s ra r).events)) := by
  simp only [readyHandler]
  by_cases h : now - s < ra
  · rw [if_pos h]; exact ⟨rfl, rfl, rfl, rfl⟩
  · rw [if_neg h]; exact ⟨rfl, rfl, rfl, rfl⟩

theorem capture_status_eq_spec (es : List WEvent)
    (hv : ∀ c ∈ writeHeaderCodes es, 100 ≤ c ∧ c ≤ 999) :
    (capture es).status = capStatusSpec es := by
  induction es with
  | nil => rfl
  | cons e es ih =>
      cases e with
      | setHeader k v =>
          have h := ih (by simpa [writeHeaderCodes] using hv)
          show (List.foldl capStep (⟨0, 0⟩ : CapState) (.setHeader k v :: es)).status
            = capStatusSpec (.setHeader k v :: es)
          rw [List.foldl_cons, show capStep ⟨0, 0⟩ (.setHeader k v) = (⟨0, 0⟩ : CapState) from rfl,
            show capStatusSpec (.setHeader k v :: es) = capStatusSpec es from rfl]
          exact h
      | writeHeader c =>
          have hc0 : (100 : Nat) ≤ c := (hv c (by simp [writeHeaderCodes])).1
          have hne : ∀ d ∈ writeHeaderCodes es, d ≠ 0 := by
            intro d hd
            have := hv d (by simp [writeHeaderCodes, hd])
            omega
          have h := foldl_capStep_status_of_ne es ⟨c, 0⟩ hne (by simp; omega)
          show (List.foldl capStep (⟨0, 0⟩ : CapState) (.writeHeader c :: es)).status
            = capStatusSpec (.writeHeader c :: es)
          rw [List.foldl_cons, show capStep ⟨0, 0⟩ (.writeHeader c) = (⟨c, 0⟩ : CapState) from rfl, h,
            show capStatusSpec (.writeHeader c :: es)
              = (c :: writeHeaderCodes es).getLastD (if hasWrite es then 200 else 0) from rfl,
            List.getLastD_cons]
      | write b =>
          have hne : ∀ d ∈ writeHeaderCodes es, d ≠ 0 := by
            intro d hd
            have := hv d (by simp [writeHeaderCodes, hd])
            omega
          have h := foldl_capStep_status_of_ne es (capStep ⟨0, 0⟩ (.write b)) hne (by simp [capStep])
          show (List.foldl capStep (⟨0, 0⟩ : CapState) (.write b :: es)).status
            = capStatusSpec (.write b :: es)
          rw [List.foldl_cons, h]
          rfl

/-- C1: for every request routed to the ready probe, below the warm-up
threshold the wire response is 503 with exactly the warming JSON body, and
from the threshold on (boundary included) it is 200 with exactly the ready
JSON body; the outcome depends only on the elapsed time and the threshold. -/
theorem ready_probe_contract (g : Globals) (r : Request)
    (hp : r.path = "/ready" ∨ r.path = "/readyz") :
    (g.now - g.startTime < g.readyAfter →
        (runEvents ((appHandler g r).events)).status = some 503 ∧
        (runEvents ((appHandler g r).events)).body = warmingBody) ∧
    (g.readyAfter ≤ g.now - g.startTime →
        (runEvents ((appHandler g r).events)).status = some 200 ∧
        (runEvents ((appHandler g r).events)).body = readyBody) := by
  have hev : (appHandler g r).events
      = securityHeaderEvents ++ (readyHandler g.now g.startTime g.readyAfter r).events := by
    rcases hp with hp | hp <;>
      simp [appHandler, hp, chain, withSecurityHeaders, withLogging]
  constructor
  · intro h
    have hre : (readyHandler g.now g.startTime g.readyAfter r).events
        = writeJSON 503 warmingBody := by
      simp [readyHandler, h]
    rw [hev, hre]
    exact ⟨rfl, rfl⟩
  · intro h
    have hre : (readyHandler g.now g.startTime g.readyAfter r).events
        = writeJSON 200 readyBody := by
      simp only [readyHandler]
      rw [if_neg (by omega)]
    rw [hev, hre]
    exact ⟨rfl, rfl⟩

/-- Witness for C1 at the boundary: elapsed time exactly equal to the
threshold is classified ready. -/
theorem ready_probe_contract_witness :
    (runEvents ((appHandler gB ⟨"GET", "/ready", "203.0.113.7:443"⟩).events)).status = some 200 ∧
    (runEvents ((appHandler gB ⟨"GET", "/ready", "203.0.113.7:443"⟩).events)).body = readyBody :=
  (ready_probe_contract gB ⟨"GET", "/ready", "203.0.113.7:443"⟩ (Or.inl rfl)).2 (by decide)

/-- C2 counterexample: the metrics route is registered without the
security-header middleware, so its response carries none of the four
headers even though it is a registered route of the program. -/
theorem security_headers_not_on_metrics :
    (runEvents ((appHandler gW ⟨"GET", "/metrics", "203.0.113.7:443"⟩).events)).status
      = some 200 ∧
    lookupHeader (runEvents ((appHandler gW ⟨"GET", "/metrics", "203.0.113.7:443"⟩).events)).sent
      "X-Content-Type-Options" = none ∧
    lookupHeader (runEvents ((appHandler gW ⟨"GET", "/metrics", "203.0.113.7:443"⟩).events)).sent
      "X-Frame-Options" = none ∧
    lookupHeader (runEvents ((appHandler gW ⟨"GET", "/metrics", "203.0.113.7:443"⟩).events)).sent
      "Referrer-Policy" = none ∧
    lookupHeader (runEvents ((appHandler gW ⟨"GET", "/metrics", "203.0.113.7:443"⟩).events)).sent
      "Content-Security-Policy" = none :=
  ⟨rfl, rfl, rfl, rfl, rfl⟩

set_option maxHeartbeats 800000 in
/-- C2 amended: every route other than the metrics route and the static
prefix is served through the security-header middleware, so its response
carries all four byte-exact header values, and the four Set events come
before anything the wrapped handler writes. -/
theorem security_headers_on_secured_routes (g : Globals) (r : Request)
    (hm : r.path ≠ "/metrics") (hs : ¬ r.path.startsWith "/static/" = true) :
    (∃ rest, (appHandler g r).events = securityHeaderEvents ++ rest) ∧
    hasSecurityHeaders (runEvents ((appHandler g r).events)) := by
  simp only [appHandler]
  by_cases h1 : r.path = "/"
  · rw [if_pos h1]; exact ⟨⟨_, rfl⟩, sec_of_home _ _⟩
  rw [if_neg h1]
  by_cases h2 : r.path = "/api/info"
  · rw [if_pos h2]; exact ⟨⟨_, rfl⟩, sec_of_json_write _⟩
  rw [if_neg h2]
  by_cases h3 : r.path = "/version"
  · rw [if_pos h3]; exact ⟨⟨_, rfl⟩, sec_of_json_write _⟩
  rw [if_neg h3]
  by_cases h4 : r.path = "/health"
  · rw [if_pos h4]; exact ⟨⟨_, rfl⟩, sec_of_writeJSON 200 healthyBody⟩
  rw [if_neg h4]
  by_cases h5 : r.path = "/live"
  · rw [if_pos h5]; exact ⟨⟨_, rfl⟩, sec_of_writeJSON 200 aliveBody⟩
  rw [if_neg h5]
  by_cases h6 : r.path = "/ready"
  · rw [if_pos h6]; exact ⟨⟨_, rfl⟩, sec_of_ready g.now g.startTime g.readyAfter r⟩
  rw [if_neg h6]
  by_cases h7 : r.path = "/healthz"
  · rw [if_pos h7]; exact ⟨⟨_, rfl⟩, sec_of_writeJSON 200 healthyBody⟩
  rw [if_neg h7]
  by_cases h8 : r.path = "/livez"
  · rw [if_pos h8]; exact ⟨⟨_, rfl⟩, sec_of_writeJSON 200 aliveBody⟩
  rw [if_neg h8]
  by_cases h9 : r.path = "/readyz"
  · rw [if_pos h9]; exact ⟨⟨_, rfl⟩, sec_of_ready g.now g.startTime g.readyAfter r⟩
  rw [if_neg h9, if_neg hm, if_neg hs]
  exact ⟨⟨_, rfl⟩, sec_of_home _ _⟩

/-- Witness for the amended C2 at a probe route. -/
theorem security_headers_on_secured_routes_witness :
    (∃ rest, (appHandler gW ⟨"GET", "/health", "203.0.113.7:443"⟩).events
        = securityHeaderEvents ++ rest) ∧
    hasSecurityHeaders
      (runEvents ((appHandler gW ⟨"GET", "/health", "203.0.113.7:443"⟩).events)) :=
  security_headers_on_secured_routes gW ⟨"GET", "/health", "203.0.113.7:443"⟩
    (by decide) (by decide)

/-- C3: the chain constructor makes the first middleware in the list the
outermost wrapper; on a two-element list it is literally the manual nesting
A (B T), and on any list the head wraps the chain of the tail. -/
theorem chain_first_outermost (T : Handler) (A B : Middleware) (mws : List Middleware) :
    chain T [A, B] = A (B T) ∧ chain T (A :: mws) = A (chain T mws) :=
  ⟨rfl, rfl⟩

/-- C4: over any trace whose explicit status codes are valid HTTP codes
(the underlying writer panics outside 100 to 999), the capture wrapper
records the total bytes written and the status the specification describes:
the last explicitly set code, else 200 when a body write occurred. -/
theorem rwCapture_status_size (es : List WEvent)
    (hv : ∀ c ∈ writeHeaderCodes es, 100 ≤ c ∧ c ≤ 999) :
    (capture es).status = capStatusSpec es ∧ (capture es).size = writtenBytes es :=
  ⟨capture_status_eq_spec es hv, by simpa [capture] using foldl_capStep_size es ⟨0, 0⟩⟩

/-- Witness for C4 on a trace where a write precedes the explicit status. -/
theorem rwCapture_status_size_witness :
    (capture [WEvent.setHeader "A" "b", WEvent.write "hello",
        WEvent.writeHeader 404, WEvent.write " world"]).status
      = capStatusSpec [WEvent.setHeader "A" "b", WEvent.write "hello",
        WEvent.writeHeader 404, WEvent.write " world"] ∧
    (capture [WEvent.setHeader "A" "b", WEvent.write "hello",
        WEvent.writeHeader 404, WEvent.write " world"]).size
      = writtenBytes [WEvent.setHeader "A" "b", WEvent.write "hello",
        WEvent.writeHeader 404, WEvent.write " world"] :=
  rwCapture_status_size _ (by decide)

/-- C5: the logging middleware leaves the response events untouched and,
once the inner handler has returned, emits exactly one record holding the
request method, path, captured status, captured byte count, remote address
and the measured elapsed milliseconds. -/
theorem withLogging_single_record (d : Int) (next : Handler) (r : Request)
    (h : (next r).logs = []) :
    (withLogging d next r).events = (next r).events ∧
    (withLogging d next r).logs =
      [⟨r.method, r.path, (capture (next r).events).status,
        (capture (next r).events).size, r.remoteAddr, d⟩] := by
  refine ⟨rfl, ?_⟩
  simp [withLogging, h]

/-- Witness for C5 with the health handler as the inner handler. -/
theorem withLogging_single_record_witness :
    (withLogging 7 healthHandler ⟨"GET", "/health", "203.0.113.7:443"⟩).events
      = (healthHandler ⟨"GET", "/health", "203.0.113.7:443"⟩).events ∧
    (withLogging 7 healthHandler ⟨"GET", "/health", "203.0.113.7:443"⟩).logs
      = [⟨"GET", "/health",
          (capture (healthHandler ⟨"GET", "/health", "203.0.113.7:443"⟩).events).status,
          (capture (healthHandler ⟨"GET", "/health", "203.0.113.7:443"⟩).events).size,
          "203.0.113.7:443", 7⟩] :=
  withLogging_single_record 7 healthHandler ⟨"GET", "/health", "203.0.113.7:443"⟩ rfl

/-- C6: the health and live probes answer 200 with their fixed JSON bodies
whatever the configured times are. -/
theorem health_live_always_ok (g : Globals) (r : Request) :
    ((r.path = "/health" ∨ r.path = "/healthz") →
        (runEvents ((appHandler g r).events)).status = some 200 ∧
        (runEvents ((appHandler g r).events)).body = healthyBody) ∧
    ((r.path = "/live" ∨ r.path = "/livez") →
        (runEvents ((appHandler g r).events)).status = some 200 ∧
        (runEvents ((appHandler g r).events)).body = aliveBody) := by
  constructor
  · intro hp
    have hev : (appHandler g r).events = securityHeaderEvents ++ writeJSON 200 healthyBody := by
      rcases hp with hp | hp <;>
        simp [appHandler, hp, chain, withSecurityHeaders, withLogging, healthHandler]
    rw [hev]
    exact ⟨rfl, rfl⟩
  · intro hp
    have hev : (appHandler g r).events = securityHeaderEvents ++ writeJSON 200 aliveBody := by
      rcases hp with hp | hp <;>
        simp [appHandler, hp, chain, withSecurityHeaders, withLogging, liveHandler]
    rw [hev]
    exact ⟨rfl, rfl⟩

/-- Witness for C6 at the kube-style alias paths. -/
theorem health_live_always_ok_witness :
    ((runEvents ((appHandler gW ⟨"GET", "/healthz", "203.0.113.7:443"⟩).events)).status
        = some 200 ∧
      (runEvents ((appHandler gW ⟨"GET", "/healthz", "203.0.113.7:443"⟩).events)).body
        = healthyBody) ∧
    ((runEvents ((appHandler gW ⟨"GET", "/livez", "203.0.113.7:443"⟩).events)).status
        = some 200 ∧
      (runEvents ((appHandler gW ⟨"GET", "/livez", "203.0.113.7:443"⟩).events)).body
        = aliveBody) :=
  ⟨(health_live_always_ok gW ⟨"GET", "/healthz", "203.0.113.7:443"⟩).1 (Or.inr rfl),
   (health_live_always_ok gW ⟨"GET", "/livez", "203.0.113.7:443"⟩).2 (Or.inr rfl)⟩

/-- C7: with startTime and readyAfter fixed, once the ready handler answers
200 at an observation time it answers 200 at every later observation time. -/
theorem ready_monotonic (startTime readyAfter t1 t2 : Int) (r : Request)
    (h12 : t1 ≤ t2)
    (h1 : (runEvents ((readyHandler t1 startTime readyAfter r).events)).status = some 200) :
    (runEvents ((readyHandler t2 startTime readyAfter r).events)).status = some 200 := by
  by_cases hc : t1 - startTime < readyAfter
  · rw [show readyHandler t1 startTime readyAfter r
        = { events := writeJSON 503 warmingBody, logs := [] } from by
          simp [readyHandler, hc]] at h1
    exact absurd h1 (by decide)
  · rw [show readyHandler t2 startTime readyAfter r
        = { events := writeJSON 200 readyBody, logs := [] } from by
          simp only [readyHandler]
          rw [if_neg (by omega)]]
    rfl

/-- Witness for C7: ready at three seconds stays ready at five. -/
theorem ready_monotonic_witness :
    (runEvents ((readyHandler 5000000000 0 2000000000
        ⟨"GET", "/ready", "203.0.113.7:443"⟩).events)).status = some 200 :=
  ready_monotonic 0 2000000000 3000000000 5000000000
    ⟨"GET", "/ready", "203.0.113.7:443"⟩ (by decide) (by decide)

/-- C8 counterexample: the info response body does contain a commit field,
serialized as the empty string, because the Commit tag has no omitempty. -/
theorem info_body_contains_commit :
    (runEvents ((appHandler gW ⟨"GET", "/api/info", "203.0.113.7:443"⟩).events)).body =
      "\x7b\"name\":\"Harness Demo App\",\"version\":\"1.0.0\"," ++ "\"commit\":\"\""
        ++ ",\"environment\":\"development\",\"buildTime\":\"\",\"uptime\":\"5s\",\"hostname\":\"demo-host\"\x7d\n" := by
  rfl

/-- C8 amended: both bodies are the AppInfo encoding with all seven keys;
the version route populates commit from the build value while the info route
serializes it as the empty string; both are 200 under application/json and
both recompute the uptime from the current clock reading. -/
theorem info_version_contract (g : Globals) (rv ri : Request)
    (hv : rv.path = "/version") (hi : ri.path = "/api/info") :
    (runEvents ((appHandler g rv).events)).status = some 200 ∧
    (runEvents ((appHandler g rv).events)).body =
      encodeAppInfo ⟨"Harness Demo App", g.version, g.commit, g.env, g.buildTime,
        uptimeString g.startTime g.now, g.hostname⟩ ∧
    lookupHeader (runEvents ((appHandler g rv).events)).sent "Content-Type"
      = some "application/json" ∧
    (runEvents ((appHandler g ri).events)).status = some 200 ∧
    (runEvents ((appHandler g ri).events)).body =
      encodeAppInfo ⟨"Harness Demo App", g.version, "", g.env, g.buildTime,
        uptimeString g.startTime g.now, g.hostname⟩ ∧
    lookupHeader (runEvents ((appHandler g ri).events)).sent "Content-Type"
      = some "application/json" := by
  have hev : (appHandler g rv).events = securityHeaderEvents ++
      [WEvent.setHeader "Content-Type" "application/json",
       WEvent.write (encodeAppInfo ⟨"Harness Demo App", g.version, g.commit, g.env,
         g.buildTime, uptimeString g.startTime g.now, g.hostname⟩)] := by
    simp [appHandler, hv, chain, withSecurityHeaders, withLogging, versionHandler]
  have hev2 : (appHandler g ri).events = securityHeaderEvents ++
      [WEvent.setHeader "Content-Type" "application/json",
       WEvent.write (encodeAppInfo ⟨"Harness Demo App", g.version, "", g.env,
         g.buildTime, uptimeString g.startTime g.now, g.hostname⟩)] := by
    simp [appHandler, hi, chain, withSecurityHeaders, withLogging, infoHandler]
  rw [hev, hev2]
  exact ⟨rfl, rfl, rfl, rfl, rfl, rfl⟩

/-- Witness for the amended C8 at the sample configuration. -/
theorem info_version_contract_witness :
    (runEvents ((appHandler gW ⟨"GET", "/version", "203.0.113.7:443"⟩).events)).body =
      encodeAppInfo ⟨"Harness Demo App", "1.0.0", "unknown", "development", "",
        "5s", "demo-host"⟩ ∧
    (runEvents ((appHandler gW ⟨"GET", "/api/info", "203.0.113.7:443"⟩).events)).body =
      encodeAppInfo ⟨"Harness Demo App", "1.0.0", "", "development", "",
        "5s", "demo-host"⟩ :=
  ⟨(info_version_contract gW ⟨"GET", "/version", "203.0.113.7:443"⟩
      ⟨"GET", "/api/info", "203.0.113.7:443"⟩ rfl rfl).2.1,
   (info_version_contract gW ⟨"GET", "/version", "203.0.113.7:443"⟩
      ⟨"GET", "/api/info", "203.0.113.7:443"⟩ rfl rfl).2.2.2.2.1⟩

/-- C9: the root handler serves the HTML page with 200 for the bare root
path, and answers every other path itself with the local 404 page, so no
error leaves the handler. -/
theorem homeHandler_contract (idx : String) (r : Request) :
    (r.path = "/" →
        (runEvents ((homeHandler idx r).events)).status = some 200 ∧
        (runEvents ((homeHandler idx r).events)).body = idx ∧
        lookupHeader (runEvents ((homeHandler idx r).events)).sent "Content-Type"
          = some "text/html; charset=utf-8") ∧
    (r.path ≠ "/" →
        (runEvents ((homeHandler idx r).events)).status = some 404 ∧
        (runEvents ((homeHandler idx r).events)).body = "404 page not found\n" ∧
        lookupHeader (runEvents ((homeHandler idx r).events)).sent "Content-Type"
          = some "text/plain; charset=utf-8") := by
  constructor
  · intro h
    rw [show homeHandler idx r
        = { events := [.setHeader "Content-Type" "text/html; charset=utf-8", .write idx],
            logs := [] } from by simp [homeHandler, h]]
    exact ⟨rfl, rfl, rfl⟩
  · intro h
    rw [show homeHandler idx r = { events := notFoundEvents, logs := [] } from by
      simp [homeHandler, h]]
    exact ⟨rfl, rfl, rfl⟩

/-- Witness for C9 at the root path and at a non-root path. -/
theorem homeHandler_contract_witness :
    ((runEvents ((homeHandler "<html>Harness Demo App</html>"
          ⟨"GET", "/", "203.0.113.7:443"⟩).events)).status = some 200 ∧
      (runEvents ((homeHandler "<html>Harness Demo App</html>"
          ⟨"GET", "/", "203.0.113.7:443"⟩).events)).body
        = "<html>Harness Demo App</html>" ∧
      lookupHeader (runEvents ((homeHandler "<html>Harness Demo App</html>"
          ⟨"GET", "/", "203.0.113.7:443"⟩).events)).sent "Content-Type"
        = some "text/html; charset=utf-8") ∧
    ((runEvents ((homeHandler "<html>Harness Demo App</html>"
          ⟨"GET", "/nope", "203.0.113.7:443"⟩).events)).status = some 404 ∧
      (runEvents ((homeHandler "<html>Harness Demo App</html>"
          ⟨"GET", "/nope", "203.0.113.7:443"⟩).events)).body = "404 page not found\n" ∧
      lookupHeader (runEvents ((homeHandler "<html>Harness Demo App</html>"
          ⟨"GET", "/nope", "203.0.113.7:443"⟩).events)).sent "Content-Type"
        = some "text/plain; charset=utf-8") :=
  ⟨(homeHandler_contract "<html>Harness Demo App</html>"
      ⟨"GET", "/", "203.0.113.7:443"⟩).1 rfl,
   (homeHandler_contract "<html>Harness Demo App</html>"
      ⟨"GET", "/nope", "203.0.113.7:443"⟩).2 (by decide)⟩

/-- C10: a trace without writes never receives the implicit 200, and an
inner handler that issues neither Write nor WriteHeader leaves the captured
status and byte count at zero, which is what the logging record reports. -/
theorem no_write_zero_status :
    (∀ es : List WEvent, hasWrite es = false →
        (capture es).status = (writeHeaderCodes es).getLastD 0) ∧
    (∀ (d : Int) (next : Handler) (r : Request),
        hasWrite (next r).events = false →
        writeHeaderCodes (next r).events = [] →
        (next r).logs = [] →
        (capture (next r).events).status = 0 ∧
        (capture (next r).events).size = 0 ∧
        (withLogging d next r).logs = [⟨r.method, r.path, 0, 0, r.remoteAddr, d⟩]) := by
  have hbase : ∀ es : List WEvent, hasWrite es = false →
      (capture es).status = (writeHeaderCodes es).getLastD 0 := fun es hw =>
    foldl_capStep_status_nowrite es ⟨0, 0⟩ hw
  refine ⟨hbase, ?_⟩
  intro d next r hw hc hl
  have hst : (capture (next r).events).status = 0 := by
    rw [hbase _ hw, hc]
    rfl
  have hsz : (capture (next r).events).size = 0 := by
    have h := foldl_capStep_size (next r).events ⟨0, 0⟩
    rw [writtenBytes_of_nowrite _ hw] at h
    simpa [capture] using h
  refine ⟨hst, hsz, ?_⟩
  simp [withLogging, hl, hst, hsz]

/-- Witness for C10 with an inner handler that only sets a header. -/
theorem no_write_zero_status_witness :
    (capture ((fun _ => ({ events := [WEvent.setHeader "X-Debug" "1"], logs := [] } : HOut)
        : Handler) ⟨"GET", "/", "203.0.113.7:443"⟩).events).status = 0 ∧
    (capture ((fun _ => ({ events := [WEvent.setHeader "X-Debug" "1"], logs := [] } : HOut)
        : Handler) ⟨"GET", "/", "203.0.113.7:443"⟩).events).size = 0 ∧
    (withLogging 4 (fun _ => ({ events := [WEvent.setHeader "X-Debug" "1"], logs := [] } : HOut))
        ⟨"GET", "/", "203.0.113.7:443"⟩).logs
      = [⟨"GET", "/", 0, 0, "203.0.113.7:443", 4⟩] :=
  no_write_zero_status.2 4
    (fun _ => ({ events := [WEvent.setHeader "X-Debug" "1"], logs := [] } : HOut))
    ⟨"GET", "/", "203.0.113.7:443"⟩ rfl rfl rfl

end SampleApp
